import Mathlib

/-!
Verification of the AirSim drone RL environment adapter
(`src/envs/airsim_drone_env_0.py`, class `AirSimDroneEnv`).

The environment is a single-threaded request/response adapter around a
simulator.  We embed its pure logic shallowly:

* an observation is a list of 3-D points (`Point3`); the source builds it as
  an (81,3) numpy array — row 0 the drone position, rows 1..80 the processed
  LiDAR points;
* the configuration constants supplied by the external `config` module are
  the fields of `Config`;
* `calculate_reward` mutates `self.step_in_episode`; we return the new value
  of that counter as the third component of the result;
* `step` mutates `self.step_count`; `stepEnv` threads an explicit `EnvState`.

Machine floats are modelled as real numbers; `np.linalg.norm` is Euclidean
norm (Frobenius norm on matrices), and Python `** 1.5` on a non-negative
float is real `rpow`.
-/

namespace AirSimDroneEnv

/-- A 3-D point, one row of the (81,3) observation array. -/
abbrev Point3 : Type := ℝ × ℝ × ℝ

/-- Componentwise subtraction, the numpy broadcast `row - vector`. -/
def sub3 (p q : Point3) : Point3 := (p.1 - q.1, p.2.1 - q.2.1, p.2.2 - q.2.2)

/-- Sum of squares of the three components of a point. -/
def sqnorm3 (p : Point3) : ℝ := p.1 ^ 2 + p.2.1 ^ 2 + p.2.2 ^ 2

/-- Euclidean norm of a 3-vector: `np.linalg.norm` on a shape-(3,) array. -/
noncomputable def norm3 (p : Point3) : ℝ := Real.sqrt (sqnorm3 p)

/-- Frobenius norm of a list of rows after subtracting a broadcast vector:
`np.linalg.norm(rows - t)` on a 2-D array is the square root of the sum of
the squares of all entries. -/
noncomputable def normRowsSub (rows : List Point3) (t : Point3) : ℝ :=
  Real.sqrt ((rows.map (fun p => sqnorm3 (sub3 p t))).sum)

/-- The constants the environment reads from the external `config` module,
together with `max_steps` and `safe_bound` cached on the instance. -/
structure Config where
  target_pos : Point3
  max_steps : ℕ
  safe_bound : ℝ
  REWARD_COLLISION : ℝ
  REWARD_MAX_STEP_EXCEED : ℝ
  REWARD_GOAL : ℝ
  REWARD_OUT_OF_BOUNDS : ℝ
  REWARD_STEP : ℝ
  REWARD_DISTANCE_GAIN : ℝ
  REWARD_DISTANCE_LOSS : ℝ

/-- The two step counters owned by the adapter: the lifetime counter
`self.step_count` and the per-episode counter `self.step_in_episode`. -/
structure EnvState where
  step_count : ℕ
  step_in_episode : ℕ

/-- Source `_get_state`, LiDAR processing part: fix the point count at 80 by
zero-padding (`np.vstack` with a zero block) when fewer, truncating
(`lidar_points[:num_points]`) when more. -/
def fixLidar (lidar_points : List Point3) : List Point3 :=
  if lidar_points.length < 80 then
    lidar_points ++ List.replicate (80 - lidar_points.length) ((0 : ℝ), (0 : ℝ), (0 : ℝ))
  else if lidar_points.length > 80 then
    lidar_points.take 80
  else
    lidar_points

/-- Source `_get_state`: concatenate the drone position (one row) with the
processed LiDAR points (80 rows) into the 81-row observation. -/
def _get_state (drone_position : Point3) (lidar_points : List Point3) : List Point3 :=
  drone_position :: fixLidar lidar_points

/-- Centre of the spherical safety boundary, `np.array([0.0, 0.0, -2.0])`. -/
def center : Point3 := ((0 : ℝ), (0 : ℝ), (-2 : ℝ))

/-- The non-terminal branch of `calculate_reward`: base step reward plus the
shaped term built from `distance_change = prev_distance - current_distance`. -/
noncomputable def shapedOf (cfg : Config) (distance_change : ℝ) : ℝ :=
  if distance_change > 0 then
    cfg.REWARD_STEP + cfg.REWARD_DISTANCE_GAIN * distance_change ^ (1.5 : ℝ)
  else
    cfg.REWARD_STEP + cfg.REWARD_DISTANCE_LOSS * |distance_change| ^ (1.5 : ℝ)

/-- Source `calculate_reward`.  Inputs: the collision flag returned by
`simGetCollisionInfo`, the current value of `self.step_in_episode`, the two
distances computed by `step`, and the new observation.  Output:
`(reward, done, new value of self.step_in_episode)`. -/
noncomputable def calculate_reward (cfg : Config) (has_collided : Bool)
    (step_in_episode : ℕ) (prev_distance current_distance : ℝ)
    (new_state : List Point3) : ℝ × Bool × ℕ :=
  if has_collided then
    (cfg.REWARD_COLLISION, true, 0)
  else if step_in_episode ≥ cfg.max_steps then
    (cfg.REWARD_MAX_STEP_EXCEED, true, 0)
  else if current_distance < 1 then
    (cfg.REWARD_GOAL, true, 0)
  else if norm3 (sub3 new_state.headI center) > cfg.safe_bound then
    (cfg.REWARD_OUT_OF_BOUNDS, true, 0)
  else
    (shapedOf cfg (prev_distance - current_distance), false, step_in_episode + 1)

/-- The distance expression of source `step`:
`np.linalg.norm(state[:3] - self.target_pos)` — the slice `state[:3]` of the
(81,3) observation is its first three ROWS, so this is the Frobenius norm of
a 3x3 matrix. -/
noncomputable def stepDistance (state : List Point3) (target_pos : Point3) : ℝ :=
  normRowsSub (state.take 3) target_pos

/-- Source `step`, the pure part: simulator reads/writes abstracted into the
observations before and after the velocity command and the collision flag.
Returns `((new_state, reward, done), new counters)`; the source increments
`self.step_count` unconditionally after `calculate_reward`. -/
noncomputable def stepEnv (cfg : Config) (has_collided : Bool) (st : EnvState)
    (state new_state : List Point3) : (List Point3 × ℝ × Bool) × EnvState :=
  let prev_distance := stepDistance state cfg.target_pos
  let current_distance := stepDistance new_state cfg.target_pos
  let r := calculate_reward cfg has_collided st.step_in_episode
    prev_distance current_distance new_state
  ((new_state, r.1, r.2.1), ⟨st.step_count + 1, r.2.2⟩)

/-- Source `reset`, the pure part: zero both counters and return the current
observation (built by `_get_state` from the post-takeoff simulator state). -/
def reset (drone_position : Point3) (lidar_points : List Point3) :
    EnvState × List Point3 :=
  (⟨0, 0⟩, _get_state drone_position lidar_points)

/-- A concrete configuration used to evaluate the model on concrete inputs:
target at the origin, 5-step episode limit, safety radius 2, and arbitrary
distinct reward magnitudes. -/
def testConfig : Config :=
  ⟨((0 : ℝ), (0 : ℝ), (0 : ℝ)), 5, 2, -100, -50, 100, -75, -1, 2, -3⟩

/-- Length of the processed LiDAR block is always 80. -/
theorem fixLidar_length (pts : List Point3) : (fixLidar pts).length = 80 := by
  unfold fixLidar
  split_ifs with h1 h2
  · simp [List.length_append, List.length_replicate]
    omega
  · simp [List.length_take]
    omega
  · omega

/-- C2: for every drone position and raw point cloud, the observation built
by `_get_state` has exactly 81 rows (each row a 3-component point by type):
row 0 is the drone position and rows 1-80 are the processed LiDAR points. -/
theorem get_state_shape (drone_position : Point3) (lidar_points : List Point3) :
    (_get_state drone_position lidar_points).length = 81 ∧
    (_get_state drone_position lidar_points).headI = drone_position ∧
    (_get_state drone_position lidar_points).tail = fixLidar lidar_points := by
  refine ⟨?_, rfl, rfl⟩
  simp only [_get_state, List.length_cons, fixLidar_length]

/-- C3: the LiDAR block of the observation is the raw cloud zero-padded to 80
points when it has fewer, its first 80 points in order when it has more, and
unchanged when it has exactly 80. -/
theorem get_state_pad_truncate (drone_position : Point3) (lidar_points : List Point3) :
    (lidar_points.length < 80 →
      (_get_state drone_position lidar_points).tail =
        lidar_points ++
          List.replicate (80 - lidar_points.length) ((0 : ℝ), (0 : ℝ), (0 : ℝ))) ∧
    (lidar_points.length > 80 →
      (_get_state drone_position lidar_points).tail = lidar_points.take 80) ∧
    (lidar_points.length = 80 →
      (_get_state drone_position lidar_points).tail = lidar_points) := by
  refine ⟨fun h => ?_, fun h => ?_, fun h => ?_⟩
  · simp [_get_state, fixLidar, h]
  · simp [_get_state, fixLidar, h]
    omega
  · simp [_get_state, fixLidar, h]

/-- Witness for C3 at concrete point counts: a 1-point cloud is padded with
79 zero points, a cloud of 81 identical points is cut to its first 80, and an
80-point cloud passes through unchanged. -/
theorem get_state_pad_truncate_witness :
    (([((5 : ℝ), (6 : ℝ), (7 : ℝ))] : List Point3).length < 80 ∧
      (_get_state ((1 : ℝ), (2 : ℝ), (3 : ℝ)) [((5 : ℝ), (6 : ℝ), (7 : ℝ))]).tail =
        [((5 : ℝ), (6 : ℝ), (7 : ℝ))] ++
          List.replicate 79 ((0 : ℝ), (0 : ℝ), (0 : ℝ))) ∧
    ((List.replicate 81 ((5 : ℝ), (6 : ℝ), (7 : ℝ)) : List Point3).length > 80 ∧
      (_get_state ((1 : ℝ), (2 : ℝ), (3 : ℝ))
          (List.replicate 81 ((5 : ℝ), (6 : ℝ), (7 : ℝ)))).tail =
        (List.replicate 81 ((5 : ℝ), (6 : ℝ), (7 : ℝ)) : List Point3).take 80) ∧
    ((List.replicate 80 ((5 : ℝ), (6 : ℝ), (7 : ℝ)) : List Point3).length = 80 ∧
      (_get_state ((1 : ℝ), (2 : ℝ), (3 : ℝ))
          (List.replicate 80 ((5 : ℝ), (6 : ℝ), (7 : ℝ)))).tail =
        List.replicate 80 ((5 : ℝ), (6 : ℝ), (7 : ℝ))) := by
  refine ⟨⟨by simp, ?_⟩, ⟨by simp, ?_⟩, ⟨by simp, ?_⟩⟩
  · exact (get_state_pad_truncate ((1 : ℝ), (2 : ℝ), (3 : ℝ))
      [((5 : ℝ), (6 : ℝ), (7 : ℝ))]).1 (by simp)
  · exact (get_state_pad_truncate ((1 : ℝ), (2 : ℝ), (3 : ℝ))
      (List.replicate 81 ((5 : ℝ), (6 : ℝ), (7 : ℝ)))).2.1 (by simp)
  · exact (get_state_pad_truncate ((1 : ℝ), (2 : ℝ), (3 : ℝ))
      (List.replicate 80 ((5 : ℝ), (6 : ℝ), (7 : ℝ)))).2.2 (by simp)

/-- C10: whenever `calculate_reward` reports a terminal step, it has set the
per-episode counter `step_in_episode` to 0, in all four terminal branches. -/
theorem reward_terminal_resets_episode_counter (cfg : Config) (has_collided : Bool)
    (step_in_episode : ℕ) (prev_distance current_distance : ℝ)
    (new_state : List Point3)
    (h : (calculate_reward cfg has_collided step_in_episode prev_distance
        current_distance new_state).2.1 = true) :
    (calculate_reward cfg has_collided step_in_episode prev_distance
        current_distance new_state).2.2 = 0 := by
  unfold calculate_reward at h ⊢
  split_ifs at h ⊢ <;> simp_all

/-- Witness for C10: a colliding step is terminal and leaves the per-episode
counter at 0. -/
theorem reward_terminal_resets_episode_counter_witness :
    (calculate_reward testConfig true 3 2 2 []).2.1 = true ∧
    (calculate_reward testConfig true 3 2 2 []).2.2 = 0 :=
  ⟨by simp [calculate_reward],
    reward_terminal_resets_episode_counter testConfig true 3 2 2 []
      (by simp [calculate_reward])⟩

/-- C4: the collision branch is checked first; on a state that also satisfies
the step-limit and goal conditions, the result is the collision penalty with
terminal = true (later branches are never reached). -/
theorem collision_first (cfg : Config) (has_collided : Bool) (step_in_episode : ℕ)
    (prev_distance current_distance : ℝ) (new_state : List Point3)
    (hc : has_collided = true) (hs : step_in_episode ≥ cfg.max_steps)
    (hg : current_distance < 1) :
    calculate_reward cfg has_collided step_in_episode prev_distance
      current_distance new_state = (cfg.REWARD_COLLISION, true, 0) := by
  subst hc
  simp [calculate_reward]

/-- Witness for C4: collision together with step limit reached and goal
reached yields the collision penalty. -/
theorem collision_first_witness :
    ((true : Bool) = true ∧ (5 : ℕ) ≥ testConfig.max_steps ∧ (0.5 : ℝ) < 1) ∧
    calculate_reward testConfig true 5 2 0.5 [] =
      (testConfig.REWARD_COLLISION, true, 0) :=
  ⟨⟨rfl, by norm_num [testConfig], by norm_num⟩,
    collision_first testConfig true 5 2 0.5 [] rfl
      (by norm_num [testConfig]) (by norm_num)⟩

/-- C5: with no collision, a per-episode counter at or above the step limit
yields the timeout penalty with terminal = true even when the current
distance is below the goal threshold 1. -/
theorem step_limit_before_goal (cfg : Config) (has_collided : Bool)
    (step_in_episode : ℕ) (prev_distance current_distance : ℝ)
    (new_state : List Point3)
    (hc : has_collided = false) (hs : step_in_episode ≥ cfg.max_steps)
    (hg : current_distance < 1) :
    calculate_reward cfg has_collided step_in_episode prev_distance
      current_distance new_state = (cfg.REWARD_MAX_STEP_EXCEED, true, 0) := by
  subst hc
  simp [calculate_reward, hs]

/-- Witness for C5: counter equal to the limit and distance 0.5 to target
yields the timeout penalty, not the goal reward. -/
theorem step_limit_before_goal_witness :
    ((false : Bool) = false ∧ (5 : ℕ) ≥ testConfig.max_steps ∧ (0.5 : ℝ) < 1) ∧
    calculate_reward testConfig false 5 2 0.5 [] =
      (testConfig.REWARD_MAX_STEP_EXCEED, true, 0) :=
  ⟨⟨rfl, by norm_num [testConfig], by norm_num⟩,
    step_limit_before_goal testConfig false 5 2 0.5 [] rfl
      (by norm_num [testConfig]) (by norm_num)⟩

/-- C8: with no collision and the step limit not reached, the goal branch
fires exactly on current distance strictly below 1 (a fixed constant in the
source, not a configuration value), giving the goal reward with
terminal = true; at distance exactly 1 the goal branch does not fire and
evaluation continues with the boundary check and the shaping branch. -/
theorem goal_threshold (cfg : Config) (has_collided : Bool) (step_in_episode : ℕ)
    (prev_distance current_distance : ℝ) (new_state : List Point3)
    (hc : has_collided = false) (hs : step_in_episode < cfg.max_steps) :
    (current_distance < 1 →
      calculate_reward cfg has_collided step_in_episode prev_distance
        current_distance new_state = (cfg.REWARD_GOAL, true, 0)) ∧
    (current_distance = 1 →
      calculate_reward cfg has_collided step_in_episode prev_distance
        current_distance new_state =
        if norm3 (sub3 new_state.headI center) > cfg.safe_bound then
          (cfg.REWARD_OUT_OF_BOUNDS, true, 0)
        else
          (shapedOf cfg (prev_distance - current_distance), false,
            step_in_episode + 1)) := by
  subst hc
  have hs' : ¬ step_in_episode ≥ cfg.max_steps := not_le.mpr hs
  constructor
  · intro h
    simp [calculate_reward, hs', h]
  · intro h
    subst h
    simp [calculate_reward, hs']

/-- Witness for C8: distance 0.5 with counter below the limit yields the goal
reward. -/
theorem goal_threshold_witness :
    ((false : Bool) = false ∧ (0 : ℕ) < testConfig.max_steps ∧ (0.5 : ℝ) < 1) ∧
    calculate_reward testConfig false 0 2 0.5 [] =
      (testConfig.REWARD_GOAL, true, 0) :=
  ⟨⟨rfl, by norm_num [testConfig], by norm_num⟩,
    (goal_threshold testConfig false 0 2 0.5 [] rfl
      (by norm_num [testConfig])).1 (by norm_num)⟩

/-- C6: in the boundary branch (no collision, limit not reached, goal not
reached), a drone position at distance strictly greater than `safe_bound`
from the centre (0,0,-2) yields the out-of-bounds penalty with
terminal = true, while at distance exactly `safe_bound` the branch does not
fire and the step is non-terminal. -/
theorem boundary_check (cfg : Config) (has_collided : Bool) (step_in_episode : ℕ)
    (prev_distance current_distance : ℝ) (new_state : List Point3)
    (hc : has_collided = false) (hs : step_in_episode < cfg.max_steps)
    (hg : ¬ current_distance < 1) :
    (norm3 (sub3 new_state.headI center) > cfg.safe_bound →
      calculate_reward cfg has_collided step_in_episode prev_distance
        current_distance new_state = (cfg.REWARD_OUT_OF_BOUNDS, true, 0)) ∧
    (norm3 (sub3 new_state.headI center) = cfg.safe_bound →
      (calculate_reward cfg has_collided step_in_episode prev_distance
        current_distance new_state).2.1 = false) := by
  subst hc
  have hs' : ¬ step_in_episode ≥ cfg.max_steps := not_le.mpr hs
  constructor
  · intro h
    simp [calculate_reward, hs', hg, h]
  · intro h
    have hb : ¬ norm3 (sub3 new_state.headI center) > cfg.safe_bound := by
      rw [h]
      exact lt_irrefl _
    simp [calculate_reward, hs', hg, hb]

/-- Witness for C6: drone at (3,0,-2), distance 3 from the centre, exceeds
the safety radius 2 and the step is scored out of bounds. -/
theorem boundary_check_witness :
    ((false : Bool) = false ∧ (0 : ℕ) < testConfig.max_steps ∧
      ¬ (2 : ℝ) < 1 ∧
      norm3 (sub3 ([((3 : ℝ), (0 : ℝ), (-2 : ℝ))] : List Point3).headI center) >
        testConfig.safe_bound) ∧
    calculate_reward testConfig false 0 2 2 [((3 : ℝ), (0 : ℝ), (-2 : ℝ))] =
      (testConfig.REWARD_OUT_OF_BOUNDS, true, 0) := by
  have h9 : norm3 (sub3 ([((3 : ℝ), (0 : ℝ), (-2 : ℝ))] : List Point3).headI center) = 3 := by
    show Real.sqrt _ = 3
    rw [show sqnorm3 (sub3 ([((3 : ℝ), (0 : ℝ), (-2 : ℝ))] : List Point3).headI center) =
      3 ^ 2 by norm_num [sqnorm3, sub3, center]]
    exact Real.sqrt_sq (by norm_num)
  have hgt : norm3 (sub3 ([((3 : ℝ), (0 : ℝ), (-2 : ℝ))] : List Point3).headI center) >
      testConfig.safe_bound := by
    rw [h9]
    norm_num [testConfig]
  exact ⟨⟨rfl, by norm_num [testConfig], by norm_num, hgt⟩,
    (boundary_check testConfig false 0 2 2 [((3 : ℝ), (0 : ℝ), (-2 : ℝ))] rfl
      (by norm_num [testConfig]) (by norm_num)).1 hgt⟩

/-- The shaped reward is the base step reward plus a pure shaping term. -/
theorem shapedOf_eq_add (cfg : Config) (d : ℝ) :
    shapedOf cfg d = cfg.REWARD_STEP +
      (if d > 0 then cfg.REWARD_DISTANCE_GAIN * d ^ (1.5 : ℝ)
       else cfg.REWARD_DISTANCE_LOSS * |d| ^ (1.5 : ℝ)) := by
  unfold shapedOf
  split_ifs <;> rfl

/-- At zero distance change the shaped reward is exactly the base reward. -/
theorem shapedOf_zero (cfg : Config) : shapedOf cfg 0 = cfg.REWARD_STEP := by
  unfold shapedOf
  rw [if_neg (lt_irrefl 0), abs_zero,
    Real.zero_rpow (by norm_num : (1.5 : ℝ) ≠ 0), mul_zero, add_zero]

/-- The shaping term is bounded in absolute value by a constant multiple of
the 1.5 power of the absolute distance change. -/
theorem shapedTerm_abs_le (cfg : Config) (d : ℝ) :
    ‖if d > 0 then cfg.REWARD_DISTANCE_GAIN * d ^ (1.5 : ℝ)
      else cfg.REWARD_DISTANCE_LOSS * |d| ^ (1.5 : ℝ)‖ ≤
      max |cfg.REWARD_DISTANCE_GAIN| |cfg.REWARD_DISTANCE_LOSS| *
        |d| ^ (1.5 : ℝ) := by
  have hr : (0 : ℝ) ≤ |d| ^ (1.5 : ℝ) := Real.rpow_nonneg (abs_nonneg d) _
  split_ifs with h
  · rw [Real.norm_eq_abs, abs_mul, Real.abs_rpow_of_nonneg h.le]
    exact mul_le_mul_of_nonneg_right (le_max_left _ _) hr
  · rw [Real.norm_eq_abs, abs_mul, abs_of_nonneg hr]
    exact mul_le_mul_of_nonneg_right (le_max_right _ _) hr

/-- The shaping term tends to 0 as the distance change tends to 0. -/
theorem shapedTerm_tendsto (cfg : Config) :
    Filter.Tendsto (fun d : ℝ =>
      if d > 0 then cfg.REWARD_DISTANCE_GAIN * d ^ (1.5 : ℝ)
      else cfg.REWARD_DISTANCE_LOSS * |d| ^ (1.5 : ℝ))
      (nhds 0) (nhds 0) := by
  have h2 : ContinuousAt (fun x : ℝ => x ^ (1.5 : ℝ)) 0 :=
    Real.continuousAt_rpow_const 0 1.5 (Or.inr (by norm_num))
  have h3 : Filter.Tendsto (fun x : ℝ => x ^ (1.5 : ℝ)) (nhds 0) (nhds 0) := by
    unfold ContinuousAt at h2
    simpa [Real.zero_rpow (by norm_num : (1.5 : ℝ) ≠ 0)] using h2
  have h4 : Filter.Tendsto (fun d : ℝ => |d|) (nhds 0) (nhds 0) := by
    simpa using continuous_abs.tendsto (0 : ℝ)
  have h1 : Filter.Tendsto (fun d : ℝ => |d| ^ (1.5 : ℝ)) (nhds 0) (nhds 0) :=
    h3.comp h4
  have h5 := h1.const_mul
    (max |cfg.REWARD_DISTANCE_GAIN| |cfg.REWARD_DISTANCE_LOSS|)
  rw [mul_zero] at h5
  exact squeeze_zero_norm (shapedTerm_abs_le cfg) h5

/-- The shaped reward is continuous at zero distance change. -/
theorem shapedOf_continuousAt (cfg : Config) : ContinuousAt (shapedOf cfg) 0 := by
  have hc : Filter.Tendsto (fun _ : ℝ => cfg.REWARD_STEP) (nhds 0)
      (nhds cfg.REWARD_STEP) := tendsto_const_nhds
  have hadd := hc.add (shapedTerm_tendsto cfg)
  rw [add_zero] at hadd
  have hfun : (shapedOf cfg) = fun d : ℝ => cfg.REWARD_STEP +
      (if d > 0 then cfg.REWARD_DISTANCE_GAIN * d ^ (1.5 : ℝ)
       else cfg.REWARD_DISTANCE_LOSS * |d| ^ (1.5 : ℝ)) :=
    funext (shapedOf_eq_add cfg)
  show Filter.Tendsto (shapedOf cfg) (nhds 0) (nhds (shapedOf cfg 0))
  rw [shapedOf_zero, hfun]
  exact hadd

/-- C7: in the non-terminal branch, the reward is the base step reward plus
gain times the 1.5 power of the distance decrease when the drone approached
the target, and the base reward plus loss times the 1.5 power of the absolute
change otherwise; the step is non-terminal, the counter increments, both
formulas give the base reward at zero change, and the shaped reward is
continuous there. -/
theorem shaping_branch (cfg : Config) (has_collided : Bool) (step_in_episode : ℕ)
    (prev_distance current_distance : ℝ) (new_state : List Point3)
    (hc : has_collided = false) (hs : step_in_episode < cfg.max_steps)
    (hg : ¬ current_distance < 1)
    (hb : ¬ norm3 (sub3 new_state.headI center) > cfg.safe_bound) :
    calculate_reward cfg has_collided step_in_episode prev_distance
      current_distance new_state =
      (shapedOf cfg (prev_distance - current_distance), false,
        step_in_episode + 1) ∧
    (prev_distance - current_distance > 0 →
      shapedOf cfg (prev_distance - current_distance) =
        cfg.REWARD_STEP + cfg.REWARD_DISTANCE_GAIN *
          (prev_distance - current_distance) ^ (1.5 : ℝ)) ∧
    (¬ prev_distance - current_distance > 0 →
      shapedOf cfg (prev_distance - current_distance) =
        cfg.REWARD_STEP + cfg.REWARD_DISTANCE_LOSS *
          |prev_distance - current_distance| ^ (1.5 : ℝ)) ∧
    shapedOf cfg 0 = cfg.REWARD_STEP ∧
    ContinuousAt (shapedOf cfg) 0 := by
  subst hc
  have hs' : ¬ step_in_episode ≥ cfg.max_steps := not_le.mpr hs
  refine ⟨by simp [calculate_reward, hs', hg, hb], fun h => ?_, fun h => ?_,
    shapedOf_zero cfg, shapedOf_continuousAt cfg⟩
  · rw [shapedOf, if_pos h]
  · rw [shapedOf, if_neg h]

/-- Witness for C7: drone at the boundary centre, distance to target moving
from 2 to 1.5, yields a non-terminal shaped reward. -/
theorem shaping_branch_witness :
    ((false : Bool) = false ∧ (0 : ℕ) < testConfig.max_steps ∧
      ¬ (1.5 : ℝ) < 1 ∧
      ¬ norm3 (sub3 ([((0 : ℝ), (0 : ℝ), (-2 : ℝ))] : List Point3).headI center) >
        testConfig.safe_bound) ∧
    calculate_reward testConfig false 0 2 1.5 [((0 : ℝ), (0 : ℝ), (-2 : ℝ))] =
      (shapedOf testConfig (2 - 1.5), false, 0 + 1) := by
  have h0 : norm3 (sub3 ([((0 : ℝ), (0 : ℝ), (-2 : ℝ))] : List Point3).headI center) = 0 := by
    show Real.sqrt _ = 0
    rw [show sqnorm3 (sub3 ([((0 : ℝ), (0 : ℝ), (-2 : ℝ))] : List Point3).headI center) =
      0 by norm_num [sqnorm3, sub3, center]]
    exact Real.sqrt_zero
  have hb : ¬ norm3 (sub3 ([((0 : ℝ), (0 : ℝ), (-2 : ℝ))] : List Point3).headI center) >
      testConfig.safe_bound := by
    rw [h0]
    norm_num [testConfig]
  exact ⟨⟨rfl, by norm_num [testConfig], by norm_num, hb⟩,
    (shaping_branch testConfig false 0 2 1.5 [((0 : ℝ), (0 : ℝ), (-2 : ℝ))] rfl
      (by norm_num [testConfig]) (by norm_num) hb).1⟩

/-- C1: evaluation at a failing input.  With the drone at the origin, a
single LiDAR return at (1,0,0) and the target at the origin, the distance
`step` hands to the reward function — `np.linalg.norm(state[:3] - target)`,
the Frobenius norm of the first three ROWS of the 81x3 observation minus the
target — equals 1, while the Euclidean distance from the drone position
(row 0) to the target equals 0.  The two quantities differ, so the distance
passed to the reward function is not the row-0 distance the claim (and the
rest of the code) intends. -/
theorem step_distance_not_row0_distance :
    stepDistance (_get_state ((0 : ℝ), (0 : ℝ), (0 : ℝ))
        [((1 : ℝ), (0 : ℝ), (0 : ℝ))]) ((0 : ℝ), (0 : ℝ), (0 : ℝ)) = 1 ∧
    norm3 (sub3 (_get_state ((0 : ℝ), (0 : ℝ), (0 : ℝ))
        [((1 : ℝ), (0 : ℝ), (0 : ℝ))]).headI ((0 : ℝ), (0 : ℝ), (0 : ℝ))) = 0 ∧
    (1 : ℝ) ≠ 0 := by
  have hsum :
      (((_get_state ((0 : ℝ), (0 : ℝ), (0 : ℝ)) [((1 : ℝ), (0 : ℝ), (0 : ℝ))]).take 3).map
        (fun p => sqnorm3 (sub3 p ((0 : ℝ), (0 : ℝ), (0 : ℝ))))).sum = 1 := by
    norm_num [_get_state, fixLidar, sqnorm3, sub3, List.take_replicate]
  have h0 :
      sqnorm3 (sub3 (_get_state ((0 : ℝ), (0 : ℝ), (0 : ℝ))
        [((1 : ℝ), (0 : ℝ), (0 : ℝ))]).headI ((0 : ℝ), (0 : ℝ), (0 : ℝ))) = 0 := by
    norm_num [_get_state, sqnorm3, sub3]
  refine ⟨?_, ?_, by norm_num⟩
  · show Real.sqrt _ = 1
    rw [hsum]
    exact Real.sqrt_one
  · show Real.sqrt _ = 0
    rw [h0]
    exact Real.sqrt_zero

/-- C9, counterexample: a colliding (hence terminal) step still increments
the lifetime counter `step_count` from 5 to 6, so it is not true that both
counters are incremented only on non-terminal steps. -/
theorem lifetime_counter_increments_on_terminal_step :
    (stepEnv testConfig true ⟨5, 3⟩ [] []).1.2.2 = true ∧
    (stepEnv testConfig true ⟨5, 3⟩ [] []).2.step_count = 6 := by
  constructor
  · simp [stepEnv, calculate_reward]
  · simp [stepEnv, calculate_reward]

/-- Per-episode counter bookkeeping of `calculate_reward`: zeroed on a
terminal result, incremented on a non-terminal one. -/
theorem calculate_reward_counter (cfg : Config) (has_collided : Bool)
    (step_in_episode : ℕ) (prev_distance current_distance : ℝ)
    (new_state : List Point3) :
    ((calculate_reward cfg has_collided step_in_episode prev_distance
        current_distance new_state).2.1 = true →
      (calculate_reward cfg has_collided step_in_episode prev_distance
        current_distance new_state).2.2 = 0) ∧
    ((calculate_reward cfg has_collided step_in_episode prev_distance
        current_distance new_state).2.1 = false →
      (calculate_reward cfg has_collided step_in_episode prev_distance
        current_distance new_state).2.2 = step_in_episode + 1) := by
  unfold calculate_reward
  split_ifs <;> simp

/-- C9, amended: reset zeroes both counters; every step — terminal or not —
increments the lifetime counter `step_count`, while the per-episode counter
`step_in_episode` is incremented exactly on non-terminal steps and zeroed on
terminal ones. -/
theorem counters_reset_and_increment (cfg : Config) (has_collided : Bool)
    (st : EnvState) (state new_state : List Point3)
    (drone_position : Point3) (lidar_points : List Point3) :
    (reset drone_position lidar_points).1.step_count = 0 ∧
    (reset drone_position lidar_points).1.step_in_episode = 0 ∧
    (stepEnv cfg has_collided st state new_state).2.step_count =
      st.step_count + 1 ∧
    ((stepEnv cfg has_collided st state new_state).1.2.2 = true →
      (stepEnv cfg has_collided st state new_state).2.step_in_episode = 0) ∧
    ((stepEnv cfg has_collided st state new_state).1.2.2 = false →
      (stepEnv cfg has_collided st state new_state).2.step_in_episode =
        st.step_in_episode + 1) := by
  refine ⟨rfl, rfl, rfl, fun h => ?_, fun h => ?_⟩
  · exact (calculate_reward_counter cfg has_collided st.step_in_episode
      (stepDistance state cfg.target_pos) (stepDistance new_state cfg.target_pos)
      new_state).1 h
  · exact (calculate_reward_counter cfg has_collided st.step_in_episode
      (stepDistance state cfg.target_pos) (stepDistance new_state cfg.target_pos)
      new_state).2 h

/-- Witness for C9 (amended): a colliding step is terminal and zeroes the
per-episode counter. -/
theorem counters_reset_and_increment_witness :
    (stepEnv testConfig true ⟨0, 0⟩ [] []).1.2.2 = true ∧
    (stepEnv testConfig true ⟨0, 0⟩ [] []).2.step_in_episode = 0 :=
  ⟨by simp [stepEnv, calculate_reward],
    (counters_reset_and_increment testConfig true ⟨0, 0⟩ [] []
      ((0 : ℝ), (0 : ℝ), (0 : ℝ)) []).2.2.2.1 (by simp [stepEnv, calculate_reward])⟩

end AirSimDroneEnv
